import Mathlib

/-!
Shallow embedding of `pkg/agent/kubeagent.go` (package `agent`) and
verification of its specification.

The file models:
  * the `KubeAgent` struct and its functional-options construction
    (`NewKubeAgent` with the seven `WithKubeAgent*` options);
  * `GetUpdatedYAMLPath`, which picks one of two otel configuration
    paths by splitting `dockerEndpoint` on `"//"` (Go `strings.Split`,
    which splits on every non-overlapping occurrence) and probing the
    second segment with the external liveness check `isSocketFn`;
  * `GetFactories`, which assembles four factory maps (extensions,
    receivers, exporters, processors) from fixed lists, aborting the
    whole assembly on the first per-kind registration error.

External collaborators that are not part of this repository's source
(`isSocketFn`, zap's production logger, the collector library's
`MakeFactoryMap`, and each factory's self-declared component name) are
parameterized or modelled from the spec, as marked in doc comments.
-/

/-- Model of `*zap.Logger` values. Go's pointer may be `nil`, which the
embedding represents with `Option Logger`; `production` stands for the
sink built by `zap.NewProduction()`, and `custom n` for any other
caller-supplied sink. -/
inductive Logger where
  | production : Logger
  | custom : Nat → Logger
deriving DecidableEq, Repr

/-- The `KubeAgent` struct of `kubeagent.go` (field names as in the
source, including the source's `enableSytheticMonitoring` spelling).
`logger` is `Option Logger` because Go's `*zap.Logger` may be `nil`. -/
structure KubeAgent where
  apiKey : String
  target : String
  enableSytheticMonitoring : Bool
  configCheckInterval : String
  apiURLForConfigCheck : String
  logger : Option Logger
  dockerEndpoint : String
deriving DecidableEq, Repr

/-- Go's zero value for `KubeAgent` (`var cfg KubeAgent`): empty strings,
`false`, `nil` logger. -/
def KubeAgent.zero : KubeAgent :=
  { apiKey := ""
    target := ""
    enableSytheticMonitoring := false
    configCheckInterval := ""
    apiURLForConfigCheck := ""
    logger := none
    dockerEndpoint := "" }

/-- One `KubeOptions` value, as produced by the seven exported
`WithKubeAgent*` constructors. Each constructor closes over one payload
and assigns exactly one field of the agent. -/
inductive KubeOption where
  | apiKey (key : String)
  | target (t : String)
  | enableSyntheticMonitoring (e : Bool)
  | configCheckInterval (c : String)
  | apiURLForConfigCheck (u : String)
  | logger (l : Option Logger)
  | dockerEndpoint (endpoint : String)
deriving DecidableEq, Repr

/-- Applying one option to the agent under construction: the body of the
closure each `WithKubeAgent*` constructor returns (a single field
assignment; no option can fail). -/
def applyOption (h : KubeAgent) : KubeOption → KubeAgent
  | .apiKey key => { h with apiKey := key }
  | .target t => { h with target := t }
  | .enableSyntheticMonitoring e => { h with enableSytheticMonitoring := e }
  | .configCheckInterval c => { h with configCheckInterval := c }
  | .apiURLForConfigCheck u => { h with apiURLForConfigCheck := u }
  | .logger l => { h with logger := l }
  | .dockerEndpoint endpoint => { h with dockerEndpoint := endpoint }

/-- Modelled from the spec: `zap.NewProduction()` (external library, not
under the repository source) returns a default production-grade sink and
an error that `NewKubeAgent` discards; the spec describes the installed
default as a non-empty production-grade sink, so the model returns the
`production` sink with no error. -/
def zapNewProduction : Logger × Option String := (Logger.production, none)

/-- `NewKubeAgent`: start from the zero value, apply the options in the
order supplied, then install the default production logger if the logger
field is still `nil`. -/
def NewKubeAgent (opts : List KubeOption) : KubeAgent :=
  let cfg := opts.foldl applyOption KubeAgent.zero
  if cfg.logger = none then { cfg with logger := some zapNewProduction.1 } else cfg

/-- Whether an option is the logger option (used to state "no logger
option appears in the sequence"). -/
def isLoggerOption : KubeOption → Bool
  | .logger _ => true
  | _ => false

/-- The payload of the last option in the list that a selector `f`
recognizes, if any: `lastSetBy f (opts ++ [o])` prefers `f o`. -/
def lastSetBy (f : KubeOption → Option α) : List KubeOption → Option α
  | [] => none
  | o :: rest =>
    match lastSetBy f rest with
    | some v => some v
    | none => f o

def apiKeyOf : KubeOption → Option String
  | .apiKey key => some key
  | _ => none

def targetOf : KubeOption → Option String
  | .target t => some t
  | _ => none

def syntheticOf : KubeOption → Option Bool
  | .enableSyntheticMonitoring e => some e
  | _ => none

def intervalOf : KubeOption → Option String
  | .configCheckInterval c => some c
  | _ => none

def configURLOf : KubeOption → Option String
  | .apiURLForConfigCheck u => some u
  | _ => none

def loggerOf : KubeOption → Option (Option Logger)
  | .logger l => some l
  | _ => none

def dockerEndpointOf : KubeOption → Option String
  | .dockerEndpoint endpoint => some endpoint
  | _ => none

/-!
## The `"//"` split

`GetUpdatedYAMLPath` calls Go's `strings.Split(k.dockerEndpoint, "//")`,
which splits around every leftmost non-overlapping instance of `"//"`
and returns `[""]` on the empty string. `splitSlashSlash` implements
exactly that scan over the character list, with `acc` holding the
characters of the current segment in reverse.
-/

def splitSlashSlash : List Char → List Char → List (List Char)
  | [], acc => [acc.reverse]
  | [c], acc => [(c :: acc).reverse]
  | c1 :: c2 :: rest, acc =>
    if c1 = '/' ∧ c2 = '/' then acc.reverse :: splitSlashSlash rest []
    else splitSlashSlash (c2 :: rest) (c1 :: acc)

/-- Go `strings.Split(s, "//")` as a function on `String`. -/
def goSplitSS (s : String) : List String :=
  (splitSlashSlash s.data []).map String.mk

/-- Whether a character list contains the substring `"//"`. -/
def containsSlashSlash : List Char → Bool
  | [] => false
  | [_] => false
  | c1 :: c2 :: rest =>
    if c1 = '/' ∧ c2 = '/' then true else containsSlashSlash (c2 :: rest)

/-- Split at the FIRST `"//"` only (Go `strings.SplitN(s, "//", 2)`):
two segments when `"//"` occurs, one segment otherwise. This is the
split the claim's algorithm prescribes; the source uses the
every-occurrence split above. -/
def splitFirstSS : List Char → List Char → List (List Char)
  | [], acc => [acc.reverse]
  | [c], acc => [(c :: acc).reverse]
  | c1 :: c2 :: rest, acc =>
    if c1 = '/' ∧ c2 = '/' then [acc.reverse, rest]
    else splitFirstSS (c2 :: rest) (c1 :: acc)

/-- First-occurrence split as a function on `String`. -/
def goSplitFirst (s : String) : List String :=
  (splitFirstSS s.data []).map String.mk

/-- `GetUpdatedYAMLPath`, parameterized by the external liveness probe.
Modelled from the spec where the probe is concerned: `isSocketFn` is not
defined under the repository source; the spec describes it as a pure
boolean query "is this address a live, connectable local socket", so it
is taken here as a function argument. The body mirrors the source:
default to `/app/otel-config.yaml`, split `dockerEndpoint` on `"//"`,
and fall back to `/app/otel-config-nodocker.yaml` unless the split has
exactly two segments and the probe accepts the second. (Go's `||`
short-circuits, so with fewer than two segments the probe is never
consulted; passing the total probe a default `""` here leaves the result
unchanged.) The second component is the method's `error` result, always
`nil`. -/
def GetUpdatedYAMLPath (isSocketFn : String → Bool) (k : KubeAgent) :
    String × Option String :=
  let yamlPath := "/app/otel-config.yaml"
  let dockerSocketPath := goSplitSS k.dockerEndpoint
  let yamlPath :=
    if dockerSocketPath.length != 2 || !(isSocketFn (dockerSocketPath.getD 1 "")) then
      "/app/otel-config-nodocker.yaml"
    else yamlPath
  (yamlPath, none)

/-- The algorithm claim C1 prescribes, written from the claim's words:
split the endpoint at the FIRST `"//"` delimiter; if that split does not
yield exactly two segments, or the probe rejects the second segment,
return the without-local-runtime path, otherwise the with-local-runtime
path. -/
def specSelectConfigPathFirstSplit (isSocketFn : String → Bool)
    (endpoint : String) : String :=
  let segs := goSplitFirst endpoint
  if segs.length = 2 ∧ isSocketFn (segs.getD 1 "") = true then
    "/app/otel-config.yaml"
  else
    "/app/otel-config-nodocker.yaml"

/-!
## Factory assembly (`GetFactories`)
-/

/-- A component factory as the assembly sees it: `type` is the
constructor's self-declared component name. Modelled from the spec: the
concrete factories (`otlpreceiver.NewFactory()` etc.) live in external
collector packages, and all the assembly consumes of them is that name. -/
structure Factory where
  type : String
deriving DecidableEq, Repr

/-- The error the per-kind registration can produce: a duplicate
self-declared name within one kind, identifying the offending kind and
name. -/
inductive AssemblyError where
  | duplicate (kind : String) (name : String)
deriving DecidableEq, Repr

/-- `otelcol.Factories`: four independent name-keyed mappings, one per
capability kind, here as association lists whose keys are unique by
construction. -/
structure Factories where
  extensions : List (String × Factory)
  receivers : List (String × Factory)
  exporters : List (String × Factory)
  processors : List (String × Factory)
deriving DecidableEq, Repr

/-- `otelcol.Factories{}`: the empty catalog the source returns on every
error path. -/
def emptyFactories : Factories :=
  { extensions := []
    receivers := []
    exporters := []
    processors := [] }

/-- The key set of one kind's mapping. -/
def keysOf (m : List (String × Factory)) : List String := m.map Prod.fst

/-- A cancellable execution context (`context.Context`): the only
observable the spec attributes to it is whether it has been cancelled. -/
structure Context where
  cancelled : Bool
deriving DecidableEq, Repr

def MakeFactoryMapAux (kind : String) :
    List Factory → List (String × Factory) →
    Except AssemblyError (List (String × Factory))
  | [], acc => .ok acc.reverse
  | f :: rest, acc =>
    if acc.any (fun p => p.1 == f.type) then
      .error (.duplicate kind f.type)
    else
      MakeFactoryMapAux kind rest ((f.type, f) :: acc)

/-- Modelled from the spec: the collector library's per-kind
`MakeFactoryMap` (external, e.g. `receiver.MakeFactoryMap`) builds a
uniquely-keyed mapping from each constructor's self-declared name to
itself, failing with an error naming the kind and the colliding name
when a name repeats within the list. -/
def MakeFactoryMap (kind : String) (fs : List Factory) :
    Except AssemblyError (List (String × Factory)) :=
  MakeFactoryMapAux kind fs []

/-- The fixed extension list: both entries in the source are commented
out, so the list is empty. -/
def kubeExtensionList : List Factory := []

/-- The fixed receiver list, in source order. Modelled from the spec
where names are concerned: each entry's self-declared name is the
component type declared by the external receiver package imported in the
source. -/
def kubeReceiverList : List Factory :=
  [⟨"otlp"⟩, ⟨"fluentforward"⟩, ⟨"filelog"⟩, ⟨"docker_stats"⟩,
   ⟨"hostmetrics"⟩, ⟨"k8s_cluster"⟩, ⟨"k8s_events"⟩, ⟨"kubeletstats"⟩,
   ⟨"prometheus"⟩]

/-- The fixed exporter list, in source order (names as for receivers). -/
def kubeExporterList : List Factory :=
  [⟨"logging"⟩, ⟨"otlp"⟩, ⟨"otlphttp"⟩]

/-- The fixed processor list, in source order (names as for receivers);
the `frontend.NewProcessorFactory()` entry is commented out in the
source and so absent here. -/
def kubeProcessorList : List Factory :=
  [⟨"batch"⟩, ⟨"memory_limiter"⟩, ⟨"filter"⟩, ⟨"attributes"⟩,
   ⟨"resource"⟩, ⟨"resourcedetection"⟩, ⟨"k8sattributes"⟩]

/-- The body of `GetFactories`, with the four per-kind lists as
parameters so that injected failures can be stated (the source
instantiates them with the fixed lists below). Mirrors the source's
control flow: assemble extensions, receivers, exporters, processors in
that order; on the first error return `(otelcol.Factories{}, err)`;
otherwise return the populated catalog and `nil` error. The context is
received but never consulted, as in the source. -/
def GetFactoriesWith (ctx : Context)
    (exts recvs exps procs : List Factory) :
    Factories × Option AssemblyError :=
  match MakeFactoryMap "extension" exts with
  | .error e => (emptyFactories, some e)
  | .ok extMap =>
    match MakeFactoryMap "receiver" recvs with
    | .error e => (emptyFactories, some e)
    | .ok recvMap =>
      match MakeFactoryMap "exporter" exps with
      | .error e => (emptyFactories, some e)
      | .ok expMap =>
        match MakeFactoryMap "processor" procs with
        | .error e => (emptyFactories, some e)
        | .ok procMap =>
          ({ extensions := extMap
             receivers := recvMap
             exporters := expMap
             processors := procMap }, none)

/-- `GetFactories` on a `KubeAgent`: the source's method, whose body
reads none of the receiver's fields and none of the context. -/
def GetFactories (k : KubeAgent) (ctx : Context) :
    Factories × Option AssemblyError :=
  GetFactoriesWith ctx kubeExtensionList kubeReceiverList
    kubeExporterList kubeProcessorList

/-- The error of the first kind whose registration fails, in the
source's fixed assembly order (extensions, receivers, exporters,
processors); `none` when all four succeed. -/
def firstAssemblyError (exts recvs exps procs : List Factory) :
    Option AssemblyError :=
  match MakeFactoryMap "extension" exts with
  | .error e => some e
  | .ok _ =>
    match MakeFactoryMap "receiver" recvs with
    | .error e => some e
    | .ok _ =>
      match MakeFactoryMap "exporter" exps with
      | .error e => some e
      | .ok _ =>
        match MakeFactoryMap "processor" procs with
        | .error e => some e
        | .ok _ => none

/-!
## State-passing method embeddings

Go methods on `*KubeAgent` could in principle write through the
receiver; the state-passing embeddings below return the receiver's state
after the call. Neither method body contains an assignment to any field
of `k`, so each returns the receiver unchanged.
-/

/-- `GetUpdatedYAMLPath` with the receiver's post-call state. -/
def GetUpdatedYAMLPathS (isSocketFn : String → Bool) (k : KubeAgent) :
    (String × Option String) × KubeAgent :=
  (GetUpdatedYAMLPath isSocketFn k, k)

/-- `GetFactories` with the receiver's post-call state. -/
def GetFactoriesS (k : KubeAgent) (ctx : Context) :
    (Factories × Option AssemblyError) × KubeAgent :=
  (GetFactories k ctx, k)

/-- Claim C1's formalization target, written from the claim's words:
the selector computed with the split taken at EVERY non-overlapping
`"//"` occurrence (Go `strings.Split` semantics), which is what the
source actually does. -/
def specSelectConfigPathEverySplit (isSocketFn : String → Bool)
    (endpoint : String) : String :=
  let segs := goSplitSS endpoint
  if segs.length = 2 ∧ isSocketFn (segs.getD 1 "") = true then
    "/app/otel-config.yaml"
  else
    "/app/otel-config-nodocker.yaml"

/-- Claim C5 as stated, written from the claim's words: for every option
sequence, each field of the constructed agent equals the payload of the
last option in the sequence that sets that field. -/
def lastWriteWinsClaim : Prop :=
  ∀ opts : List KubeOption,
    (∀ v, lastSetBy apiKeyOf opts = some v → (NewKubeAgent opts).apiKey = v) ∧
    (∀ v, lastSetBy targetOf opts = some v → (NewKubeAgent opts).target = v) ∧
    (∀ v, lastSetBy syntheticOf opts = some v →
      (NewKubeAgent opts).enableSytheticMonitoring = v) ∧
    (∀ v, lastSetBy intervalOf opts = some v →
      (NewKubeAgent opts).configCheckInterval = v) ∧
    (∀ v, lastSetBy configURLOf opts = some v →
      (NewKubeAgent opts).apiURLForConfigCheck = v) ∧
    (∀ v, lastSetBy loggerOf opts = some v → (NewKubeAgent opts).logger = v) ∧
    (∀ v, lastSetBy dockerEndpointOf opts = some v →
      (NewKubeAgent opts).dockerEndpoint = v)

/-!
## Helper lemmas
-/

theorem goSplitSS_empty : goSplitSS "" = [""] := rfl

theorem stringMkData (s : String) : String.mk s.data = s := by
  cases s
  rfl

theorem splitSlashSlash_no_sep (s : List Char) :
    ∀ acc, containsSlashSlash s = false →
      splitSlashSlash s acc = [acc.reverse ++ s] := by
  induction s with
  | nil =>
    intro acc _
    simp [splitSlashSlash]
  | cons c rest ih =>
    intro acc h
    cases rest with
    | nil => simp [splitSlashSlash]
    | cons c2 rest2 =>
      simp only [containsSlashSlash] at h
      simp only [splitSlashSlash]
      by_cases hcond : c = '/' ∧ c2 = '/'
      · rw [if_pos hcond] at h
        exact absurd h (by simp)
      · rw [if_neg hcond] at h
        rw [if_neg hcond, ih (c :: acc) h]
        simp

theorem splitSlashSlash_unix (suffix : List Char) :
    splitSlashSlash ('u' :: 'n' :: 'i' :: 'x' :: ':' :: '/' :: '/' :: suffix) [] =
      ['u', 'n', 'i', 'x', ':'] :: splitSlashSlash suffix [] := by
  simp [splitSlashSlash]

theorem goSplitSS_unix (suffix : String)
    (h : containsSlashSlash suffix.data = false) :
    goSplitSS ("unix://" ++ suffix) = ["unix:", suffix] := by
  unfold goSplitSS
  rw [String.data_append]
  have hpre : "unix://".data = ['u', 'n', 'i', 'x', ':', '/', '/'] := rfl
  rw [hpre]
  show (splitSlashSlash
      ('u' :: 'n' :: 'i' :: 'x' :: ':' :: '/' :: '/' :: suffix.data) []).map String.mk = _
  rw [splitSlashSlash_unix, splitSlashSlash_no_sep suffix.data [] h]
  simp [stringMkData]

/-!
## Claims about `GetUpdatedYAMLPath`
-/

/-- Claim C1 (as stated) is false: `GetUpdatedYAMLPath` does NOT follow
the algorithm with the split taken at the first `"//"` delimiter. At the
endpoint `"unix:///a//b"` with a probe accepting every address, the
first-split algorithm yields the with-local-runtime path, but the source
(Go `strings.Split`, every occurrence) gets three segments and yields
the without-local-runtime path. -/
theorem c1_counterexample :
    ¬ (∀ (isSocketFn : String → Bool) (k : KubeAgent),
        (GetUpdatedYAMLPath isSocketFn k).1 =
          specSelectConfigPathFirstSplit isSocketFn k.dockerEndpoint) := by
  intro hclaim
  exact absurd
    (hclaim (fun _ => true)
      { KubeAgent.zero with dockerEndpoint := "unix:///a//b" })
    (by decide)

/-- Claim C1 (amended): for every identity and probe,
`GetUpdatedYAMLPath` follows the spec's algorithm with the split taken
at EVERY non-overlapping `"//"` occurrence: if that split does not yield
exactly two segments, or the probe on the second segment fails, it
returns `/app/otel-config-nodocker.yaml`; otherwise
`/app/otel-config.yaml`. In particular an endpoint whose remainder
after the first `"//"` contains further `"//"` occurrences yields the
without-local-runtime path even when the probe succeeds. -/
theorem c1_amended_every_split (isSocketFn : String → Bool) (k : KubeAgent) :
    (GetUpdatedYAMLPath isSocketFn k).1 =
      specSelectConfigPathEverySplit isSocketFn k.dockerEndpoint := by
  show (if (goSplitSS k.dockerEndpoint).length != 2 ||
        !(isSocketFn ((goSplitSS k.dockerEndpoint).getD 1 "")) then
      "/app/otel-config-nodocker.yaml" else "/app/otel-config.yaml") =
    (if (goSplitSS k.dockerEndpoint).length = 2 ∧
        isSocketFn ((goSplitSS k.dockerEndpoint).getD 1 "") = true then
      "/app/otel-config.yaml" else "/app/otel-config-nodocker.yaml")
  by_cases h1 : (goSplitSS k.dockerEndpoint).length = 2
  · have h1b : ((goSplitSS k.dockerEndpoint).length != 2) = false := by
      simp [h1]
    rw [h1b]
    cases h2 : isSocketFn ((goSplitSS k.dockerEndpoint).getD 1 "") with
    | false => simp
    | true => simp [h1]
  · have h1b : ((goSplitSS k.dockerEndpoint).length != 2) = true := by
      simpa using h1
    rw [h1b]
    simp [h1]

/-- Claim C2: `GetUpdatedYAMLPath` returns the reduced-configuration
path `/app/otel-config-nodocker.yaml` for an identity whose
`dockerEndpoint` is empty, for one whose `dockerEndpoint` contains no
`"//"`, and for one whose endpoint splits into exactly two segments but
whose socket segment the probe rejects. -/
theorem c2_reduced_path_cases :
    (∀ (isSocketFn : String → Bool) (k : KubeAgent),
        k.dockerEndpoint = "" →
        (GetUpdatedYAMLPath isSocketFn k).1 = "/app/otel-config-nodocker.yaml") ∧
    (∀ (isSocketFn : String → Bool) (k : KubeAgent),
        containsSlashSlash k.dockerEndpoint.data = false →
        (GetUpdatedYAMLPath isSocketFn k).1 = "/app/otel-config-nodocker.yaml") ∧
    (∀ (isSocketFn : String → Bool) (k : KubeAgent),
        (goSplitSS k.dockerEndpoint).length = 2 →
        isSocketFn ((goSplitSS k.dockerEndpoint).getD 1 "") = false →
        (GetUpdatedYAMLPath isSocketFn k).1 = "/app/otel-config-nodocker.yaml") := by
  refine ⟨?_, ?_, ?_⟩
  · intro isSocketFn k h
    simp [GetUpdatedYAMLPath, h, goSplitSS_empty]
  · intro isSocketFn k h
    have hs : goSplitSS k.dockerEndpoint = [k.dockerEndpoint] := by
      unfold goSplitSS
      rw [splitSlashSlash_no_sep k.dockerEndpoint.data [] h]
      simp [stringMkData]
    simp [GetUpdatedYAMLPath, hs]
  · intro isSocketFn k h1 h2
    show (if (goSplitSS k.dockerEndpoint).length != 2 ||
          !(isSocketFn ((goSplitSS k.dockerEndpoint).getD 1 "")) then
        "/app/otel-config-nodocker.yaml" else "/app/otel-config.yaml") = _
    rw [h2]
    simp

/-- Witness for C2: the three cases at the concrete endpoints `""`,
`"tcp:2375"`, and `"unix:///var/run/docker.sock"` with a dead socket. -/
theorem c2_reduced_path_cases_witness :
    (GetUpdatedYAMLPath (fun _ => true)
        { KubeAgent.zero with dockerEndpoint := "" }).1 =
      "/app/otel-config-nodocker.yaml" ∧
    (GetUpdatedYAMLPath (fun _ => true)
        { KubeAgent.zero with dockerEndpoint := "tcp:2375" }).1 =
      "/app/otel-config-nodocker.yaml" ∧
    (GetUpdatedYAMLPath (fun _ => false)
        { KubeAgent.zero with dockerEndpoint := "unix:///var/run/docker.sock" }).1 =
      "/app/otel-config-nodocker.yaml" :=
  ⟨c2_reduced_path_cases.1 _ _ rfl,
   c2_reduced_path_cases.2.1 _ _ (by decide),
   c2_reduced_path_cases.2.2 _ _ (by decide) (by decide)⟩

/-- Claim C3: when `dockerEndpoint` has the form `unix://` followed by a
socket path containing no further `"//"` (so the split yields exactly
two segments) and the probe accepts that socket path,
`GetUpdatedYAMLPath` returns the full-configuration path
`/app/otel-config.yaml`. -/
theorem c3_full_path_live_socket (isSocketFn : String → Bool)
    (k : KubeAgent) (suffix : String)
    (hend : k.dockerEndpoint = "unix://" ++ suffix)
    (hns : containsSlashSlash suffix.data = false)
    (hlive : isSocketFn suffix = true) :
    (GetUpdatedYAMLPath isSocketFn k).1 = "/app/otel-config.yaml" := by
  have hs : goSplitSS k.dockerEndpoint = ["unix:", suffix] := by
    rw [hend]
    exact goSplitSS_unix suffix hns
  simp [GetUpdatedYAMLPath, hs, hlive]

/-- Witness for C3: a live socket at `unix:///var/run/test.sock`. -/
theorem c3_full_path_live_socket_witness :
    (GetUpdatedYAMLPath (fun s => s == "/var/run/test.sock")
        { KubeAgent.zero with dockerEndpoint := "unix:///var/run/test.sock" }).1 =
      "/app/otel-config.yaml" :=
  c3_full_path_live_socket (fun s => s == "/var/run/test.sock")
    { KubeAgent.zero with dockerEndpoint := "unix:///var/run/test.sock" }
    "/var/run/test.sock" (by decide) (by decide) (by decide)

/-- Claim C4: `GetUpdatedYAMLPath` never fails: for every identity and
every probe it returns a `nil` error, and the path it returns is one of
the two fixed absolute paths. -/
theorem c4_total_no_error (isSocketFn : String → Bool) (k : KubeAgent) :
    (GetUpdatedYAMLPath isSocketFn k).2 = none ∧
    ((GetUpdatedYAMLPath isSocketFn k).1 = "/app/otel-config.yaml" ∨
     (GetUpdatedYAMLPath isSocketFn k).1 = "/app/otel-config-nodocker.yaml") := by
  refine ⟨rfl, ?_⟩
  cases h : ((goSplitSS k.dockerEndpoint).length != 2 ||
      !(isSocketFn ((goSplitSS k.dockerEndpoint).getD 1 ""))) with
  | true =>
    right
    show (if (goSplitSS k.dockerEndpoint).length != 2 ||
          !(isSocketFn ((goSplitSS k.dockerEndpoint).getD 1 "")) then
        "/app/otel-config-nodocker.yaml" else "/app/otel-config.yaml") = _
    rw [h]
    simp
  | false =>
    left
    show (if (goSplitSS k.dockerEndpoint).length != 2 ||
          !(isSocketFn ((goSplitSS k.dockerEndpoint).getD 1 "")) then
        "/app/otel-config-nodocker.yaml" else "/app/otel-config.yaml") = _
    rw [h]
    simp

/-!
## Claims about `NewKubeAgent`
-/

theorem newKubeAgent_eq (opts : List KubeOption) :
    NewKubeAgent opts =
      (if (opts.foldl applyOption KubeAgent.zero).logger = none
       then { opts.foldl applyOption KubeAgent.zero with
              logger := some zapNewProduction.1 }
       else opts.foldl applyOption KubeAgent.zero) := rfl

theorem foldl_lastSetBy {α : Type} (f : KubeOption → Option α)
    (get : KubeAgent → α)
    (hcompat : ∀ s o, get (applyOption s o) = (f o).getD (get s)) :
    ∀ (opts : List KubeOption) (s : KubeAgent),
      get (opts.foldl applyOption s) = (lastSetBy f opts).getD (get s) := by
  intro opts
  induction opts with
  | nil => intro s; rfl
  | cons o rest ih =>
    intro s
    have h1 : (o :: rest).foldl applyOption s =
        rest.foldl applyOption (applyOption s o) := rfl
    rw [h1, ih, hcompat]
    cases hl : lastSetBy f rest with
    | some v => simp [lastSetBy, hl]
    | none => simp [lastSetBy, hl]

theorem lastSetBy_loggerOf_none (opts : List KubeOption)
    (h : opts.all (fun o => !(isLoggerOption o)) = true) :
    lastSetBy loggerOf opts = none := by
  induction opts with
  | nil => rfl
  | cons o rest ih =>
    rw [List.all_cons, Bool.and_eq_true] at h
    rw [lastSetBy, ih h.2]
    cases o with
    | logger l => simp [isLoggerOption] at h
    | _ => rfl

/-- Claim C5 (as stated) is false: with the sequence consisting of the
single option `WithKubeAgentLogger(nil)`, the last option to set the
logger field sets it to `nil`, yet the constructed agent's logger field
is the default production sink, not `nil`. -/
theorem c5_counterexample : ¬ lastWriteWinsClaim := by
  intro hclaim
  exact absurd
    ((hclaim [KubeOption.logger none]).2.2.2.2.2.1 none rfl)
    (by decide)

/-- Claim C5 (amended): options are applied strictly in order, none
fails, and every field of the constructed agent equals the payload of
the last option that set it — except the logger field, where a `nil`
final value (logger never set, or last set to `nil`) is replaced by the
default production sink. -/
theorem c5_amended_last_write_wins (opts : List KubeOption) :
    (∀ v, lastSetBy apiKeyOf opts = some v → (NewKubeAgent opts).apiKey = v) ∧
    (∀ v, lastSetBy targetOf opts = some v → (NewKubeAgent opts).target = v) ∧
    (∀ v, lastSetBy syntheticOf opts = some v →
      (NewKubeAgent opts).enableSytheticMonitoring = v) ∧
    (∀ v, lastSetBy intervalOf opts = some v →
      (NewKubeAgent opts).configCheckInterval = v) ∧
    (∀ v, lastSetBy configURLOf opts = some v →
      (NewKubeAgent opts).apiURLForConfigCheck = v) ∧
    (∀ v, lastSetBy dockerEndpointOf opts = some v →
      (NewKubeAgent opts).dockerEndpoint = v) ∧
    (∀ l, lastSetBy loggerOf opts = some (some l) →
      (NewKubeAgent opts).logger = some l) ∧
    ((lastSetBy loggerOf opts = none ∨ lastSetBy loggerOf opts = some none) →
      (NewKubeAgent opts).logger = some Logger.production) := by
  have hL := foldl_lastSetBy loggerOf KubeAgent.logger
    (by intro s o; cases o <;> rfl) opts KubeAgent.zero
  refine ⟨?_, ?_, ?_, ?_, ?_, ?_, ?_, ?_⟩
  · intro v hv
    have hp : (NewKubeAgent opts).apiKey =
        (opts.foldl applyOption KubeAgent.zero).apiKey := by
      rw [newKubeAgent_eq]; split <;> rfl
    rw [hp, foldl_lastSetBy apiKeyOf KubeAgent.apiKey
      (by intro s o; cases o <;> rfl) opts KubeAgent.zero, hv]
    rfl
  · intro v hv
    have hp : (NewKubeAgent opts).target =
        (opts.foldl applyOption KubeAgent.zero).target := by
      rw [newKubeAgent_eq]; split <;> rfl
    rw [hp, foldl_lastSetBy targetOf KubeAgent.target
      (by intro s o; cases o <;> rfl) opts KubeAgent.zero, hv]
    rfl
  · intro v hv
    have hp : (NewKubeAgent opts).enableSytheticMonitoring =
        (opts.foldl applyOption KubeAgent.zero).enableSytheticMonitoring := by
      rw [newKubeAgent_eq]; split <;> rfl
    rw [hp, foldl_lastSetBy syntheticOf KubeAgent.enableSytheticMonitoring
      (by intro s o; cases o <;> rfl) opts KubeAgent.zero, hv]
    rfl
  · intro v hv
    have hp : (NewKubeAgent opts).configCheckInterval =
        (opts.foldl applyOption KubeAgent.zero).configCheckInterval := by
      rw [newKubeAgent_eq]; split <;> rfl
    rw [hp, foldl_lastSetBy intervalOf KubeAgent.configCheckInterval
      (by intro s o; cases o <;> rfl) opts KubeAgent.zero, hv]
    rfl
  · intro v hv
    have hp : (NewKubeAgent opts).apiURLForConfigCheck =
        (opts.foldl applyOption KubeAgent.zero).apiURLForConfigCheck := by
      rw [newKubeAgent_eq]; split <;> rfl
    rw [hp, foldl_lastSetBy configURLOf KubeAgent.apiURLForConfigCheck
      (by intro s o; cases o <;> rfl) opts KubeAgent.zero, hv]
    rfl
  · intro v hv
    have hp : (NewKubeAgent opts).dockerEndpoint =
        (opts.foldl applyOption KubeAgent.zero).dockerEndpoint := by
      rw [newKubeAgent_eq]; split <;> rfl
    rw [hp, foldl_lastSetBy dockerEndpointOf KubeAgent.dockerEndpoint
      (by intro s o; cases o <;> rfl) opts KubeAgent.zero, hv]
    rfl
  · intro l hl
    have hcl : (opts.foldl applyOption KubeAgent.zero).logger = some l := by
      rw [hL, hl]
      rfl
    rw [newKubeAgent_eq, if_neg (by rw [hcl]; exact fun hc => by cases hc)]
    exact hcl
  · intro h0
    have hcl : (opts.foldl applyOption KubeAgent.zero).logger = none := by
      cases h0 with
      | inl h => rw [hL, h]; rfl
      | inr h => rw [hL, h]; rfl
    rw [newKubeAgent_eq, if_pos hcl]
    rfl

/-- Witness for the amended C5: a concrete sequence where `apiKey` is
set twice (the later value wins), the logger is set to a custom sink,
and `target` is set once. -/
theorem c5_amended_last_write_wins_witness :
    (NewKubeAgent [KubeOption.apiKey "a", KubeOption.apiKey "b",
        KubeOption.logger (some (Logger.custom 7)),
        KubeOption.target "https://x"]).apiKey = "b" ∧
    (NewKubeAgent [KubeOption.apiKey "a", KubeOption.apiKey "b",
        KubeOption.logger (some (Logger.custom 7)),
        KubeOption.target "https://x"]).target = "https://x" ∧
    (NewKubeAgent [KubeOption.apiKey "a", KubeOption.apiKey "b",
        KubeOption.logger (some (Logger.custom 7)),
        KubeOption.target "https://x"]).logger = some (Logger.custom 7) :=
  ⟨(c5_amended_last_write_wins _).1 "b" (by decide),
   (c5_amended_last_write_wins _).2.1 "https://x" (by decide),
   (c5_amended_last_write_wins _).2.2.2.2.2.2.1 (Logger.custom 7) (by decide)⟩

/-- Claim C6: if no logger option appears in the sequence, the
constructed agent's logger field is the non-`nil` default production
sink. -/
theorem c6_default_logger (opts : List KubeOption)
    (h : opts.all (fun o => !(isLoggerOption o)) = true) :
    (NewKubeAgent opts).logger = some Logger.production ∧
    (NewKubeAgent opts).logger ≠ none := by
  have hL := foldl_lastSetBy loggerOf KubeAgent.logger
    (by intro s o; cases o <;> rfl) opts KubeAgent.zero
  have hcl : (opts.foldl applyOption KubeAgent.zero).logger = none := by
    rw [hL, lastSetBy_loggerOf_none opts h]
    rfl
  have hres : (NewKubeAgent opts).logger = some Logger.production := by
    rw [newKubeAgent_eq, if_pos hcl]
    rfl
  exact ⟨hres, by rw [hres]; exact fun hc => by cases hc⟩

/-- Witness for C6: a sequence with no logger option. -/
theorem c6_default_logger_witness :
    (NewKubeAgent [KubeOption.apiKey "k",
        KubeOption.target "https://x"]).logger = some Logger.production ∧
    (NewKubeAgent [KubeOption.apiKey "k",
        KubeOption.target "https://x"]).logger ≠ none :=
  c6_default_logger [KubeOption.apiKey "k", KubeOption.target "https://x"]
    (by decide)

/-!
## Claims about `GetFactories`
-/

/-- Claim C7: with every per-kind registration succeeding (which the
fixed lists do), `GetFactories` returns a `nil` error and a catalog
whose four mappings are separate namespaces whose key sets are exactly
the compile-time catalog's declared names, without duplicates: the nine
receiver names, three exporter names, seven processor names, and zero
extension names; the name `otlp` appears in both the receiver and the
exporter namespace without conflict. -/
theorem c7_catalog_keys (k : KubeAgent) (ctx : Context) :
    (GetFactories k ctx).2 = none ∧
    keysOf (GetFactories k ctx).1.extensions = [] ∧
    keysOf (GetFactories k ctx).1.receivers =
      ["otlp", "fluentforward", "filelog", "docker_stats", "hostmetrics",
       "k8s_cluster", "k8s_events", "kubeletstats", "prometheus"] ∧
    keysOf (GetFactories k ctx).1.exporters = ["logging", "otlp", "otlphttp"] ∧
    keysOf (GetFactories k ctx).1.processors =
      ["batch", "memory_limiter", "filter", "attributes", "resource",
       "resourcedetection", "k8sattributes"] ∧
    (keysOf (GetFactories k ctx).1.receivers).Nodup ∧
    (keysOf (GetFactories k ctx).1.exporters).Nodup ∧
    (keysOf (GetFactories k ctx).1.processors).Nodup ∧
    "otlp" ∈ keysOf (GetFactories k ctx).1.receivers ∧
    "otlp" ∈ keysOf (GetFactories k ctx).1.exporters := by
  have hG : GetFactories k ctx = GetFactories KubeAgent.zero ⟨false⟩ := rfl
  rw [hG]
  refine ⟨rfl, rfl, rfl, rfl, rfl, by decide, by decide, by decide,
    by decide, by decide⟩

/-- Claim C8: whenever one kind's registration fails, `GetFactoriesWith`
(the body of `GetFactories`, with the per-kind constructor lists as
parameters) propagates the first failing kind's `AssemblyError`
unchanged and returns the empty catalog, never a partial one. -/
theorem c8_error_aborts_assembly (ctx : Context)
    (exts recvs exps procs : List Factory) (e : AssemblyError)
    (h : firstAssemblyError exts recvs exps procs = some e) :
    GetFactoriesWith ctx exts recvs exps procs = (emptyFactories, some e) := by
  unfold firstAssemblyError at h
  unfold GetFactoriesWith
  cases h1 : MakeFactoryMap "extension" exts with
  | error e1 =>
    rw [h1] at h
    simp only [Option.some.injEq] at h
    rw [h]
  | ok m1 =>
    rw [h1] at h
    cases h2 : MakeFactoryMap "receiver" recvs with
    | error e2 =>
      rw [h2] at h
      simp only [Option.some.injEq] at h
      rw [h]
    | ok m2 =>
      rw [h2] at h
      cases h3 : MakeFactoryMap "exporter" exps with
      | error e3 =>
        rw [h3] at h
        simp only [Option.some.injEq] at h
        rw [h]
      | ok m3 =>
        rw [h3] at h
        cases h4 : MakeFactoryMap "processor" procs with
        | error e4 =>
          rw [h4] at h
          simp only [Option.some.injEq] at h
          rw [h]
        | ok m4 =>
          rw [h4] at h
          cases h

/-- Witness for C8: injecting a second constructor named `otlp` into the
receiver list makes the assembly fail with the receiver-kind duplicate
error and the empty catalog. -/
theorem c8_error_aborts_assembly_witness :
    firstAssemblyError kubeExtensionList
        (kubeReceiverList ++ [⟨"otlp"⟩]) kubeExporterList kubeProcessorList =
      some (AssemblyError.duplicate "receiver" "otlp") ∧
    GetFactoriesWith ⟨false⟩ kubeExtensionList
        (kubeReceiverList ++ [⟨"otlp"⟩]) kubeExporterList kubeProcessorList =
      (emptyFactories, some (AssemblyError.duplicate "receiver" "otlp")) :=
  ⟨by decide,
   c8_error_aborts_assembly ⟨false⟩ kubeExtensionList
     (kubeReceiverList ++ [⟨"otlp"⟩]) kubeExporterList kubeProcessorList
     (AssemblyError.duplicate "receiver" "otlp") (by decide)⟩

/-- Claim C9: the identity is immutable after construction: in the
state-passing embedding of the two methods, the receiver after
`GetUpdatedYAMLPath` and after `GetFactories` is exactly the receiver
before (neither method body assigns to any field of `k`). -/
theorem c9_identity_immutable (isSocketFn : String → Bool)
    (k : KubeAgent) (ctx : Context) :
    (GetUpdatedYAMLPathS isSocketFn k).2 = k ∧ (GetFactoriesS k ctx).2 = k :=
  ⟨rfl, rfl⟩

/-- Claim C10: `GetFactories` never consults its context: for any one
agent and any two contexts — including an already-cancelled one — the
results are identical. -/
theorem c10_context_independent (k : KubeAgent) (ctx1 ctx2 : Context) :
    GetFactories k ctx1 = GetFactories k ctx2 := rfl
